import Mathlib

/-!
# Verification of the Pentagon Gymnastics diagram scripts

Shallow embedding of the geometry utility `get_box_edge_point` (identical in
`professional_uml_class_diagram.py` and `professional_dissertation_diagrams.py`)
and of the control flow of the diagram-generation pipelines
(`academic_diagram_generator.py`, `fixed_diagram_generator.py`,
`improved_diagram_generator.py`, `generate_all_diagrams.py`).

Python float arithmetic on the exact linear expressions used by the scripts is
modelled by `ℚ`; a Python `ZeroDivisionError` is modelled by returning `none`,
with the guard placed exactly where the source divides.

The matplotlib calls themselves live outside the repository; what the source
determines — and what is embedded here — is the control flow around them: the
per-diagram loops, the placement of `try`/`except`, the computed file names,
the output-directory handling and the process exit codes.  An oracle
`render : String → Except String Unit` stands for the outcome of constructing
and saving one diagram (`Except.error e` models a raised exception with
message `e`), and the filesystem is the list of existing paths.
-/

namespace PentagonGym

/-- Embedding of `get_box_edge_point(self, box_pos, target_point)` from
`professional_uml_class_diagram.py` lines 584-613 (the copy in
`professional_dissertation_diagrams.py` lines 427-456 is textually identical).
The box is `(x, y, w, h)`, the target `(tx, ty)`.  A division whose divisor is
zero raises `ZeroDivisionError` in Python; here it yields `none`. -/
def get_box_edge_point (x y w h tx ty : ℚ) : Option (ℚ × ℚ) :=
  let cx := x + w / 2
  let cy := y + h / 2
  let dx := tx - cx
  let dy := ty - cy
  if |dx| > |dy| then
    -- Intersect with left or right edge; Python divides by abs(dx)
    if |dx| = 0 then none
    else if dx > 0 then some (x + w, cy + dy * (w / 2) / |dx|)
    else some (x, cy + dy * (w / 2) / |dx|)
  else
    -- Intersect with top or bottom edge; Python divides by abs(dy)
    if |dy| = 0 then none
    else if dy > 0 then some (cx + dx * (h / 2) / |dy|, y + h)
    else some (cx + dx * (h / 2) / |dy|, y)

/-- The claim's notion of lying on the rectangle's boundary: one coordinate is
on an edge line (`x`, `x+w`, `y`, or `y+h`) and the other is within that
edge's span. -/
def onBoxEdge (x y w h px py : ℚ) : Prop :=
  ((px = x ∨ px = x + w) ∧ y ≤ py ∧ py ≤ y + h) ∨
  ((py = y ∨ py = y + h) ∧ x ≤ px ∧ px ≤ x + w)

instance (x y w h px py : ℚ) : Decidable (onBoxEdge x y w h px py) := by
  unfold onBoxEdge; infer_instance

/-- The algorithm exactly as section 4.1 of the spec words it: compare the
absolute deltas from the box center to the target; if the horizontal delta
dominates, take the left or right edge (side by the sign of `dx`) with the
vertical coordinate `cy + dy*(w/2)/|dx|`; otherwise take the top or bottom
edge (side by the sign of `dy`) with the horizontal coordinate
`cx + dx*(h/2)/|dy|`.  Division by zero again yields `none`. -/
def edge_point_spec (x y w h tx ty : ℚ) : Option (ℚ × ℚ) :=
  let cx := x + w / 2
  let cy := y + h / 2
  let dx := tx - cx
  let dy := ty - cy
  if |dx| > |dy| then
    if |dx| = 0 then none
    else some (if dx > 0 then x + w else x, cy + dy * (w / 2) / |dx|)
  else
    if |dy| = 0 then none
    else some (cx + dx * (h / 2) / |dy|, if dy > 0 then y + h else y)

/-- Observable outcome of one pipeline run: files written, per-diagram error
lines (`except` inside the loop, naming the diagram), and run-level error
lines (`except` around the whole run). -/
inductive Event where
  | saved (file : String)
  | errorMsg (diagram msg : String)
  | runError (msg : String)
  deriving DecidableEq

def spaceChar : Char := ' '

def underscoreChar : Char := '_'

/-- `name.lower().replace(' ', '_')`, applied to each diagram's display name
to build its file names in `academic_diagram_generator.py` and
`fixed_diagram_generator.py`: lower-case every character, then replace each
space with an underscore (both operations are character-wise, carried out
here on the string's character list). -/
def sanitizeName (name : String) : String :=
  String.mk ((name.data.map Char.toLower).map fun c =>
    if c = spaceChar then underscoreChar else c)

def pngExt : String := ".png"

def pdfExt : String := ".pdf"

def academicStem : String := "academic_"

def fixedStem : String := "pentagon_gym_"

def academicPng (name : String) : String :=
  academicStem ++ sanitizeName name ++ pngExt

def academicPdf (name : String) : String :=
  academicStem ++ sanitizeName name ++ pdfExt

def fixedPng (name : String) : String :=
  fixedStem ++ sanitizeName name ++ pngExt

def fixedPdf (name : String) : String :=
  fixedStem ++ sanitizeName name ++ pdfExt

/-- The `diagrams` table of `save_diagrams` in
`academic_diagram_generator.py` lines 543-548; `fixed_diagram_generator.py`
lines 462-467 uses the same four names. -/
def diagramTable : List String :=
  ["Class Diagram", "ERD Diagram", "Sequence Diagram", "Component Diagram"]

/-- One iteration of the `for name, func in diagrams` loop of
`save_diagrams` (`academic_diagram_generator.py` lines 550-573,
`fixed_diagram_generator.py` lines 469-489): the whole body runs under
`try`; success writes the PNG then the PDF, an exception prints an error line
naming the diagram and the loop continues. -/
def perDiagramStep (png pdf : String → String)
    (render : String → Except String Unit) (name : String) : List Event :=
  match render name with
  | Except.ok _ => [Event.saved (png name), Event.saved (pdf name)]
  | Except.error e => [Event.errorMsg name e]

/-- The whole `save_diagrams` loop. -/
def perDiagramRun (png pdf : String → String)
    (render : String → Except String Unit) (ds : List String) : List Event :=
  ds.flatMap (perDiagramStep png pdf render)

/-- The four generator calls of
`ImprovedDiagramGenerator.generate_all_diagrams`
(`improved_diagram_generator.py` lines 1064-1105), named by the files they
write under the output directory. -/
def erdName : String := "pentagon_gym_erd"

def archName : String := "pentagon_gym_system_architecture"

def classDiagName : String := "pentagon_gym_class_diagram"

def seqDiagName : String := "pentagon_gym_sequence_diagram"

def improvedDiagrams : List String :=
  [erdName, archName, classDiagName, seqDiagName]

/-- The body of the single `try` of
`ImprovedDiagramGenerator.generate_all_diagrams`: the generator calls run in
sequence; the first exception transfers control to the one `except` clause,
which prints a run-level error line and abandons the remaining diagrams. -/
def improvedRun (gen : String → Except String Unit) :
    List String → List Event
  | [] => []
  | d :: ds =>
    match gen d with
    | Except.ok _ => Event.saved d :: improvedRun gen ds
    | Except.error e => [Event.runError e]

def isRunError : Event → Bool
  | Event.runError _ => true
  | _ => false

def savedName : Event → Option String
  | Event.saved d => some d
  | _ => none

/-- `generate_all_diagrams` returns the collected file list, or `[]` when its
`except` clause fired (`improved_diagram_generator.py` lines 1102-1105). -/
def improvedGeneratedFiles (gen : String → Except String Unit) :
    List String :=
  if (improvedRun gen improvedDiagrams).any isRunError then []
  else (improvedRun gen improvedDiagrams).filterMap savedName

/-- `main` of `improved_diagram_generator.py` lines 1107-1118: `sys.exit(1)`
when the returned list is empty, otherwise the interpreter exits 0. -/
def improvedMainExit (gen : String → Except String Unit) : Nat :=
  if (improvedGeneratedFiles gen).isEmpty then 1 else 0

/-- The `fixed_diagram_generator.py` script: `save_diagrams()` swallows every
exception inside its loop, and no `sys.exit` call exists anywhere, so the
process exit status is `0` no matter which diagrams failed. -/
def fixedScript (render : String → Except String Unit) : List Event × Nat :=
  (perDiagramRun fixedPng fixedPdf render diagramTable, 0)

/-- `main` of `generate_all_diagrams.py` lines 756-818: `return 1` when
`check_requirements` fails, `return 1` when the wrapped generation raises,
else `return 0`; the result is passed to `sys.exit`. -/
def generateAllMainExit (reqOk : Bool) (run : Except String Unit) : Nat :=
  if !reqOk then 1
  else
    match run with
    | Except.ok _ => 0
    | Except.error _ => 1

/-- Output directory of `AcademicDiagramGenerator` in
`generate_all_diagrams.py` (also used by the other class-based scripts). -/
def outputDir : String := "dissertation_diagrams"

def regSeqName : String := "pentagon_gym_registration_sequence"

def bookSeqName : String := "pentagon_gym_booking_sequence"

def subSeqName : String := "pentagon_gym_subscription_sequence"

/-- The six `save_figure` file names declared by
`AcademicDiagramGenerator.generate_all_diagrams` and
`generate_all_sequence_diagrams` in `generate_all_diagrams.py`. -/
def declaredDiagrams : List String :=
  [erdName, archName, classDiagName, regSeqName, bookSeqName, subSeqName]

def fileExistsMsg : String := "FileExistsError"

/-- `os.makedirs(dir)` without `exist_ok`: raises `FileExistsError` when the
directory already exists. -/
def makedirs (fs : List String) (dir : String) :
    Except String (List String) :=
  if dir ∈ fs then Except.error fileExistsMsg else Except.ok (dir :: fs)

/-- `ensure_output_directory` (`generate_all_diagrams.py` lines 51-55):
create the directory only when it does not exist. -/
def ensure_output_directory (fs : List String) :
    Except String (List String) :=
  if outputDir ∉ fs then makedirs fs outputDir else Except.ok fs

def slash : String := "/"

def png_path (filename : String) : String :=
  outputDir ++ slash ++ filename ++ pngExt

def pdf_path (filename : String) : String :=
  outputDir ++ slash ++ filename ++ pdfExt

/-- `save_figure` (`generate_all_diagrams.py` lines 57-72): write
`<outputDir>/<filename>.png`, then `<outputDir>/<filename>.pdf`. -/
def save_figure (fs : List String) (filename : String) : List String :=
  pdf_path filename :: png_path filename :: fs

/-- Constructing `AcademicDiagramGenerator` (which ensures the output
directory) and then running `generate_all_diagrams`, which calls
`save_figure` once per declared diagram. -/
def runGenerateAll (fs : List String) : Except String (List String) :=
  match ensure_output_directory fs with
  | Except.error e => Except.error e
  | Except.ok fs1 => Except.ok (declaredDiagrams.foldl save_figure fs1)

/-- The paths a run adds to the filesystem. -/
def generated_paths : List String :=
  declaredDiagrams.foldl save_figure []

def boomMsg : String := "boom"

def classDiagramTitle : String := "Class Diagram"

/-- A render oracle whose ERD generation raises. -/
def failErdGen : String → Except String Unit :=
  fun d => if d = erdName then Except.error boomMsg else Except.ok ()

/-- A render oracle whose Class Diagram rendering raises. -/
def failClassGen : String → Except String Unit :=
  fun d => if d = classDiagramTitle then Except.error boomMsg else Except.ok ()

/-- A render oracle whose system-architecture generation raises. -/
def failArchGen : String → Except String Unit :=
  fun d => if d = archName then Except.error boomMsg else Except.ok ()

/-- A render oracle on which every diagram succeeds. -/
def allOkGen : String → Except String Unit := fun _ => Except.ok ()

/-- The body of the single `try` of `main` in `generate_all_diagrams.py`
lines 768-818: `generator.generate_all_diagrams()` performs the declared
`save_figure` calls in sequence with no handler of its own, so the first
exception propagates to `main`'s one `except` clause, which prints a
run-level error line; the remaining diagrams are not generated. -/
def mainTryRun (gen : String → Except String Unit) :
    List String → List Event
  | [] => []
  | d :: ds =>
    match gen d with
    | Except.ok _ => Event.saved d :: mainTryRun gen ds
    | Except.error e => [Event.runError e]

/-- The files a `save_diagrams` run writes.  `academic_diagram_generator.py`
and `fixed_diagram_generator.py` pass bare relative file names to `savefig`,
so their designated output location is the process working directory. -/
def perDiagramFiles (png pdf : String → String)
    (render : String → Except String Unit) (ds : List String) : List String :=
  (perDiagramRun png pdf render ds).filterMap savedName

/-- The `academic_diagram_generator.py` script: structurally identical to the
fixed generator — `save_diagrams()` catches per diagram inside its loop, the
script contains no `sys.exit` call, so the process exit status is `0` no
matter which diagrams failed. -/
def academicScript (render : String → Except String Unit) :
    List Event × Nat :=
  (perDiagramRun academicPng academicPdf render diagramTable, 0)

/-- C2: `get_box_edge_point` implements exactly the algorithm stated by the
spec: deltas compared in absolute value, left/right edge chosen by the sign of
`dx` with vertical coordinate `cy + dy*(w/2)/|dx|` when `|dx| > |dy|`,
otherwise top/bottom edge chosen by the sign of `dy` with horizontal
coordinate `cx + dx*(h/2)/|dy|`. -/
theorem c2_implements_spec_algorithm (x y w h tx ty : ℚ) :
    get_box_edge_point x y w h tx ty = edge_point_spec x y w h tx ty := by
  simp only [get_box_edge_point, edge_point_spec]
  split_ifs <;> rfl

theorem edge_point_none_iff (x y w h tx ty : ℚ) :
    get_box_edge_point x y w h tx ty = none ↔
      tx = x + w / 2 ∧ ty = y + h / 2 := by
  simp only [get_box_edge_point]
  set dx := tx - (x + w / 2) with hdx
  set dy := ty - (y + h / 2) with hdy
  have hxiff : tx = x + w / 2 ↔ dx = 0 := by
    rw [hdx]; constructor <;> intro hh <;> linarith
  have hyiff : ty = y + h / 2 ↔ dy = 0 := by
    rw [hdy]; constructor <;> intro hh <;> linarith
  rw [hxiff, hyiff]
  split_ifs with h1 h2 h3 h4 h5
  · -- |dx| > |dy| and |dx| = 0 : unreachable since |dy| ≥ 0
    exfalso
    have := abs_nonneg dy
    rw [h2] at h1
    linarith
  · simp only [reduceCtorEq, false_iff, not_and]
    intro hdx0
    exact absurd (by rw [hdx0, abs_zero]) h2
  · simp only [reduceCtorEq, false_iff, not_and]
    intro hdx0
    exact absurd (by rw [hdx0, abs_zero]) h2
  · -- ¬(|dx| > |dy|) and |dy| = 0 : dx = 0 as well
    simp only [true_iff]
    have hdy0 : dy = 0 := abs_eq_zero.mp h4
    have hdx0 : dx = 0 := by
      have := abs_nonneg dx
      rw [hdy0, abs_zero] at h1
      have : |dx| ≤ 0 := le_of_not_lt h1
      exact abs_eq_zero.mp (le_antisymm this (abs_nonneg dx))
    exact ⟨hdx0, hdy0⟩
  · simp only [reduceCtorEq, false_iff, not_and]
    intro _ hdy0
    exact absurd (by rw [hdy0, abs_zero]) h4
  · simp only [reduceCtorEq, false_iff, not_and]
    intro _ hdy0
    exact absurd (by rw [hdy0, abs_zero]) h4

/-- C1: refuted on the code.  For the rectangle `(0, 0, 10, 2)` (positive
width and height) and the target `(15, 10)` (distinct from the center
`(5, 1)`), `get_box_edge_point` returns `(10, 11/2)`, whose `y`-coordinate
`11/2` is outside the right edge's span `[0, 2]`: the returned point does not
lie on the rectangle's boundary, contradicting the claim and the function's
own docstring. -/
theorem c1_returned_point_off_boundary :
    (0 : ℚ) < 10 ∧ (0 : ℚ) < 2 ∧ ((15 : ℚ) ≠ 5 ∨ (10 : ℚ) ≠ 1) ∧
    get_box_edge_point 0 0 10 2 15 10 = some (10, 11 / 2) ∧
    ¬ onBoxEdge 0 0 10 2 10 (11 / 2) := by
  refine ⟨by norm_num, by norm_num, Or.inl (by norm_num),
    by norm_num [get_box_edge_point], ?_⟩
  norm_num [onBoxEdge]

/-- C3: a target directly to the right of the center (same `y`, larger `x`)
yields the midpoint of the right edge, a target directly above the center
(same `x`, larger `y`) yields the midpoint of the top edge, and the spec's
two concrete examples on the box `(0, 0, 10, 10)` evaluate as claimed. -/
theorem c3_axis_aligned_midpoints (x y w h tx ty : ℚ) (_hw : 0 < w)
    (_hh : 0 < h) :
    (ty = y + h / 2 → x + w / 2 < tx →
      get_box_edge_point x y w h tx ty = some (x + w, y + h / 2)) ∧
    (tx = x + w / 2 → y + h / 2 < ty →
      get_box_edge_point x y w h tx ty = some (x + w / 2, y + h)) ∧
    get_box_edge_point 0 0 10 10 20 5 = some (10, 5) ∧
    get_box_edge_point 0 0 10 10 5 20 = some (5, 10) := by
  refine ⟨?_, ?_, by norm_num [get_box_edge_point],
    by norm_num [get_box_edge_point]⟩
  · intro hty htx
    have hdy : ty - (y + h / 2) = 0 := by rw [hty]; ring
    have hdx : 0 < tx - (x + w / 2) := by linarith
    simp only [get_box_edge_point, hdy, abs_zero, zero_mul, zero_div, add_zero]
    rw [if_pos (abs_pos.mpr (ne_of_gt hdx)),
      if_neg (abs_ne_zero.mpr (ne_of_gt hdx)), if_pos hdx]
  · intro htx hty
    have hdx : tx - (x + w / 2) = 0 := by rw [htx]; ring
    have hdy : 0 < ty - (y + h / 2) := by linarith
    simp only [get_box_edge_point, hdx, abs_zero, zero_mul, zero_div, add_zero]
    rw [if_neg (not_lt.mpr (abs_nonneg _)),
      if_neg (abs_ne_zero.mpr (ne_of_gt hdy)), if_pos hdy]

/-- Witness for C3 at the box `(0, 0, 20, 10)` and the target `(30, 5)`,
directly to the right of the center `(10, 5)`. -/
theorem c3_axis_aligned_midpoints_witness :
    get_box_edge_point 0 0 20 10 30 5 = some (20, 5) := by
  have h := (c3_axis_aligned_midpoints 0 0 20 10 30 5 (by norm_num)
    (by norm_num)).1 (by norm_num) (by norm_num)
  rw [h]
  norm_num

/-- C4: refuted on the code.  The zero-size box `(0, 0, 0, 0)` with the
target `(1, 0)` does not divide by zero: the horizontal delta dominates, so
the left/right branch divides by `|dx| = 1` and returns `(0, 0)`. -/
theorem c4_zero_size_box_can_return :
    get_box_edge_point 0 0 0 0 1 0 = some (0, 0) ∧
    get_box_edge_point 0 0 0 0 1 0 ≠ none := by
  have h : get_box_edge_point 0 0 0 0 1 0 = some (0, 0) := by
    norm_num [get_box_edge_point]
  exact ⟨h, by rw [h]; exact fun hc => Option.noConfusion hc⟩

/-- C4 amended: for a zero-size box, `get_box_edge_point` raises a
division-by-zero error exactly when the target equals the box's position
(which is its center); for every other target it returns a point. -/
theorem c4_zero_size_divzero_iff_target_eq_corner (x y tx ty : ℚ) :
    get_box_edge_point x y 0 0 tx ty = none ↔ tx = x ∧ ty = y := by
  rw [edge_point_none_iff]
  norm_num

/-- C9: `get_box_edge_point` raises a division-by-zero error if and only if
the target equals the box center, for every box; every target distinct from
the center yields a returned point, zero-size boxes included. -/
theorem c9_divzero_iff_target_is_center (x y w h tx ty : ℚ) :
    get_box_edge_point x y w h tx ty = none ↔
      tx = x + w / 2 ∧ ty = y + h / 2 :=
  edge_point_none_iff x y w h tx ty

/-- C10: when the absolute deltas are equal and nonzero, the comparison
`|dx| > |dy|` is false, so the top/bottom branch runs: the `y`-coordinate is
exactly `y + h` when `dy > 0` and exactly `y` when `dy < 0`, and the
`x`-coordinate is the interpolated `cx + dx*(h/2)/|dy|` — never a left/right
edge point. -/
theorem c10_tie_takes_top_or_bottom (x y w h tx ty : ℚ)
    (h1 : |tx - (x + w / 2)| = |ty - (y + h / 2)|) (h2 : ty ≠ y + h / 2) :
    get_box_edge_point x y w h tx ty =
      some (x + w / 2 + (tx - (x + w / 2)) * (h / 2) / |ty - (y + h / 2)|,
        if y + h / 2 < ty then y + h else y) := by
  have hdy : ty - (y + h / 2) ≠ 0 := fun hc => h2 (by linarith)
  simp only [get_box_edge_point]
  rw [if_neg (by rw [h1]; exact lt_irrefl _), if_neg (abs_ne_zero.mpr hdy)]
  by_cases hpos : 0 < ty - (y + h / 2)
  · rw [if_pos hpos, if_pos (by linarith)]
  · rw [if_neg hpos, if_neg (fun hc => hpos (by linarith))]

/-- Witness for C10 at the box `(0, 0, 10, 10)` and the target `(20, 20)`:
the deltas from the center `(5, 5)` are `(15, 15)`, and the result is the
corner `(10, 10)` of the top edge. -/
theorem c10_tie_takes_top_or_bottom_witness :
    get_box_edge_point 0 0 10 10 20 20 = some (10, 10) := by
  have h := c10_tie_takes_top_or_bottom 0 0 10 10 20 20 (by norm_num)
    (by norm_num)
  rw [h]
  norm_num [abs_of_nonneg]

/-- C5: refuted on the code.  In
`ImprovedDiagramGenerator.generate_all_diagrams` a single `try` wraps all
four diagrams: when the first one (the ERD) raises, the run emits one
run-level error line that names no diagram, and none of the remaining three
diagrams is generated. -/
theorem c5_improved_aborts_counterexample :
    improvedRun failErdGen improvedDiagrams = [Event.runError boomMsg] ∧
    Event.saved archName ∉ improvedRun failErdGen improvedDiagrams ∧
    Event.saved classDiagName ∉ improvedRun failErdGen improvedDiagrams := by
  refine ⟨by decide, by decide, by decide⟩

theorem improvedRun_abort (gen : String → Except String Unit)
    (d e : String) (hd : gen d = Except.error e) :
    ∀ ds1 ds2 : List String,
      (∀ d2, d2 ∈ ds1 → gen d2 = Except.ok ()) →
      improvedRun gen (ds1 ++ d :: ds2) =
        ds1.map Event.saved ++ [Event.runError e] := by
  intro ds1
  induction ds1 with
  | nil =>
    intro ds2 _
    simp [improvedRun, hd]
  | cons a ds1 ih =>
    intro ds2 hok
    have ha := hok a (List.mem_cons_self a ds1)
    simp [improvedRun, ha,
      ih ds2 (fun d2 h2 => hok d2 (List.mem_cons_of_mem a h2))]

theorem mainTryRun_abort (gen : String → Except String Unit)
    (d e : String) (hd : gen d = Except.error e) :
    ∀ ds1 ds2 : List String,
      (∀ d2, d2 ∈ ds1 → gen d2 = Except.ok ()) →
      mainTryRun gen (ds1 ++ d :: ds2) =
        ds1.map Event.saved ++ [Event.runError e] := by
  intro ds1
  induction ds1 with
  | nil =>
    intro ds2 _
    simp [mainTryRun, hd]
  | cons a ds1 ih =>
    intro ds2 hok
    have ha := hok a (List.mem_cons_self a ds1)
    simp [mainTryRun, ha,
      ih ds2 (fun d2 h2 => hok d2 (List.mem_cons_of_mem a h2))]

/-- C5 amended: in `save_diagrams` (academic and fixed generators) the `try`
sits inside the loop, so a failing diagram — wherever it stands in the
table — yields one error line naming that diagram and every other diagram is
still processed; in `ImprovedDiagramGenerator.generate_all_diagrams` and in
`main` of `generate_all_diagrams.py` the single run-level `try` stops at the
first failing diagram: the diagrams before it are generated, one run-level
error line is printed, and the diagrams after it are not generated. -/
theorem c5_catch_granularity (render : String → Except String Unit)
    (d e : String) (hd : render d = Except.error e) :
    (∀ png pdf ds1 ds2,
      perDiagramRun png pdf render (ds1 ++ d :: ds2) =
        perDiagramRun png pdf render ds1 ++
          Event.errorMsg d e :: perDiagramRun png pdf render ds2) ∧
    (∀ ds1 ds2 : List String,
      (∀ d2, d2 ∈ ds1 → render d2 = Except.ok ()) →
      improvedRun render (ds1 ++ d :: ds2) =
        ds1.map Event.saved ++ [Event.runError e]) ∧
    (∀ ds1 ds2 : List String,
      (∀ d2, d2 ∈ ds1 → render d2 = Except.ok ()) →
      mainTryRun render (ds1 ++ d :: ds2) =
        ds1.map Event.saved ++ [Event.runError e]) := by
  refine ⟨?_, improvedRun_abort render d e hd, mainTryRun_abort render d e hd⟩
  intro png pdf ds1 ds2
  simp [perDiagramRun, List.flatMap_append, List.flatMap_cons,
    perDiagramStep, hd]

/-- Witness for C5: in `main` of `generate_all_diagrams.py`, the architecture
diagram failing after a successful ERD leaves one saved diagram and one
run-level error line; the four remaining diagrams are never generated. -/
theorem c5_catch_granularity_witness :
    mainTryRun failArchGen declaredDiagrams =
      [Event.saved erdName, Event.runError boomMsg] := by
  have hok : ∀ d2, d2 ∈ [erdName] → failArchGen d2 = Except.ok () := by
    intro d2 h2
    fin_cases h2
    simp [failArchGen, erdName, archName]
  have h := (c5_catch_granularity failArchGen archName boomMsg
    (by simp [failArchGen])).2.2 [erdName]
    [classDiagName, regSeqName, bookSeqName, subSeqName] hok
  simpa [declaredDiagrams] using h

theorem save_figure_foldl_eq (ds : List String) (fs : List String) :
    ds.foldl save_figure fs = ds.foldl save_figure [] ++ fs := by
  induction ds generalizing fs with
  | nil => simp
  | cons d ds ih =>
    simp only [List.foldl_cons]
    rw [ih (save_figure fs d), ih (save_figure [] d)]
    simp [save_figure, List.append_assoc]

theorem perDiagramRun_all_ok (png pdf : String → String)
    (render : String → Except String Unit) :
    ∀ ds : List String, (∀ d, d ∈ ds → render d = Except.ok ()) →
      perDiagramRun png pdf render ds =
        ds.flatMap fun n => [Event.saved (png n), Event.saved (pdf n)] := by
  intro ds
  induction ds with
  | nil => intro _; rfl
  | cons a ds ih =>
    intro hok
    have ha := hok a (List.mem_cons_self a ds)
    have ih2 := ih fun d2 h2 => hok d2 (List.mem_cons_of_mem a h2)
    simp only [perDiagramRun, List.flatMap_cons] at ih2 ⊢
    rw [ih2]
    simp [perDiagramStep, ha]

theorem filterMap_saved_flatMap (png pdf : String → String) :
    ∀ ds : List String,
      ((ds.flatMap fun n =>
          [Event.saved (png n), Event.saved (pdf n)]).filterMap savedName) =
        ds.flatMap fun n => [png n, pdf n] := by
  intro ds
  induction ds with
  | nil => rfl
  | cons a ds ih =>
    simp [List.flatMap_cons, List.filterMap_append, savedName, ih]

/-- C6, per cited generation script.  `generate_all_diagrams.py`: on any
starting filesystem the run does not raise — in particular when the output
directory pre-exists — and it adds exactly one PNG and one PDF path per
declared diagram, both inside the output directory.
`fixed_diagram_generator.py` and `academic_diagram_generator.py` pass bare
relative file names and perform no directory handling (their designated
output location is the working directory, so nothing can be raised for a
pre-existing directory), and a run on which every table diagram renders
writes exactly one PNG and one PDF file per declared diagram. -/
theorem c6_one_raster_one_vector_per_diagram (fs : List String)
    (render : String → Except String Unit)
    (hok : ∀ d, d ∈ diagramTable → render d = Except.ok ()) :
    runGenerateAll fs =
      Except.ok (generated_paths ++
        (if outputDir ∈ fs then fs else outputDir :: fs)) ∧
    generated_paths.Nodup ∧
    (∀ name, name ∈ declaredDiagrams →
      generated_paths.count (png_path name) = 1 ∧
      generated_paths.count (pdf_path name) = 1) ∧
    (∀ name, name ∈ diagramTable →
      (perDiagramFiles fixedPng fixedPdf render diagramTable).count
          (fixedPng name) = 1 ∧
      (perDiagramFiles fixedPng fixedPdf render diagramTable).count
          (fixedPdf name) = 1) ∧
    (∀ name, name ∈ diagramTable →
      (perDiagramFiles academicPng academicPdf render diagramTable).count
          (academicPng name) = 1 ∧
      (perDiagramFiles academicPng academicPdf render diagramTable).count
          (academicPdf name) = 1) := by
  have hfix : perDiagramFiles fixedPng fixedPdf render diagramTable =
      diagramTable.flatMap fun n => [fixedPng n, fixedPdf n] := by
    unfold perDiagramFiles
    rw [perDiagramRun_all_ok fixedPng fixedPdf render diagramTable hok]
    exact filterMap_saved_flatMap fixedPng fixedPdf diagramTable
  have hacad : perDiagramFiles academicPng academicPdf render diagramTable =
      diagramTable.flatMap fun n => [academicPng n, academicPdf n] := by
    unfold perDiagramFiles
    rw [perDiagramRun_all_ok academicPng academicPdf render diagramTable hok]
    exact filterMap_saved_flatMap academicPng academicPdf diagramTable
  refine ⟨?_, by decide, ?_, ?_, ?_⟩
  · by_cases hmem : outputDir ∈ fs
    · have h1 : runGenerateAll fs =
          Except.ok (declaredDiagrams.foldl save_figure fs) := by
        unfold runGenerateAll ensure_output_directory
        rw [if_neg (not_not_intro hmem)]
      rw [h1, save_figure_foldl_eq, if_pos hmem]
      rfl
    · have h1 : runGenerateAll fs =
          Except.ok (declaredDiagrams.foldl save_figure (outputDir :: fs)) := by
        unfold runGenerateAll ensure_output_directory makedirs
        rw [if_pos hmem, if_neg hmem]
      rw [h1, save_figure_foldl_eq, if_neg hmem]
      rfl
  · intro name hname
    fin_cases hname <;> exact ⟨by decide, by decide⟩
  · intro name hname
    rw [hfix]
    fin_cases hname <;> exact ⟨by decide, by decide⟩
  · intro name hname
    rw [hacad]
    fin_cases hname <;> exact ⟨by decide, by decide⟩

/-- Witness for C6 with an all-success render oracle, on a filesystem where
the output directory pre-exists. -/
theorem c6_one_raster_one_vector_per_diagram_witness :
    runGenerateAll [outputDir] = Except.ok (generated_paths ++ [outputDir]) ∧
    generated_paths.count (png_path erdName) = 1 ∧
    (perDiagramFiles academicPng academicPdf allOkGen diagramTable).count
        (academicPng classDiagramTitle) = 1 := by
  have h := c6_one_raster_one_vector_per_diagram [outputDir] allOkGen
    (fun d hd => rfl)
  refine ⟨?_, (h.2.2.1 erdName (by decide)).1,
    (h.2.2.2.2 classDiagramTitle (by decide)).1⟩
  have h1 := h.1
  simpa using h1

theorem improvedRun_all_ok (gen : String → Except String Unit) :
    ∀ ds : List String, (∀ d, d ∈ ds → gen d = Except.ok ()) →
      improvedRun gen ds = ds.map Event.saved := by
  intro ds
  induction ds with
  | nil => intro _; rfl
  | cons d ds ih =>
    intro hok
    have hd := hok d (List.mem_cons_self d ds)
    simp [improvedRun, hd,
      ih (fun d2 h2 => hok d2 (List.mem_cons_of_mem d h2))]

theorem improvedRun_has_runError (gen : String → Except String Unit) :
    ∀ ds : List String,
      (∃ d, d ∈ ds ∧ ∃ e, gen d = Except.error e) →
      (improvedRun gen ds).any isRunError = true := by
  intro ds
  induction ds with
  | nil =>
    intro hfail
    rcases hfail with ⟨d, hd, _⟩
    exact absurd hd (List.not_mem_nil d)
  | cons d ds ih =>
    intro hfail
    cases hgen : gen d with
    | error e => simp [improvedRun, hgen, isRunError]
    | ok u =>
      rcases hfail with ⟨d2, hd2, e2, he2⟩
      rcases List.mem_cons.mp hd2 with h | h
      · subst h
        rw [hgen] at he2
        exact absurd he2 (by simp)
      · have hrec := ih ⟨d2, h, e2, he2⟩
        simp [improvedRun, hgen, isRunError, hrec]

theorem improvedGeneratedFiles_all_ok (gen : String → Except String Unit)
    (hok : ∀ d, d ∈ improvedDiagrams → gen d = Except.ok ()) :
    improvedGeneratedFiles gen = improvedDiagrams := by
  unfold improvedGeneratedFiles
  rw [improvedRun_all_ok gen improvedDiagrams hok]
  decide

/-- C7: refuted on the code.  Running `fixed_diagram_generator.py` with a
failing Class Diagram prints the error line for it, yet the process exit
status is `0`, not nonzero. -/
theorem c7_fixed_exits_zero_counterexample :
    failClassGen classDiagramTitle = Except.error boomMsg ∧
    Event.errorMsg classDiagramTitle boomMsg ∈ (fixedScript failClassGen).1 ∧
    (fixedScript failClassGen).2 = 0 := by
  refine ⟨by simp [failClassGen], by decide, rfl⟩

theorem perDiagramRun_errorMsg_mem (png pdf : String → String)
    (render : String → Except String Unit) :
    ∀ (ds : List String) (d e : String), d ∈ ds →
      render d = Except.error e →
      Event.errorMsg d e ∈ perDiagramRun png pdf render ds := by
  intro ds
  induction ds with
  | nil =>
    intro d e hd _
    exact absurd hd (List.not_mem_nil d)
  | cons a ds ih =>
    intro d e hd hde
    unfold perDiagramRun
    rw [List.flatMap_cons]
    rcases List.mem_cons.mp hd with h | h
    · subst h
      refine List.mem_append.mpr (Or.inl ?_)
      simp [perDiagramStep, hde]
    · have hmem := ih d e h hde
      unfold perDiagramRun at hmem
      exact List.mem_append.mpr (Or.inr hmem)

/-- C7 amended: `generate_all_diagrams.py` and
`improved_diagram_generator.py` exit `0` on success and `1` when the
requirements check fails or a diagram's generation raises;
`fixed_diagram_generator.py` and `academic_diagram_generator.py` print a
per-diagram error line naming the failed diagram but their process always
exits `0`. -/
theorem c7_exit_codes (e : String) (gen : String → Except String Unit) :
    generateAllMainExit true (Except.ok ()) = 0 ∧
    generateAllMainExit true (Except.error e) = 1 ∧
    (∀ r, generateAllMainExit false r = 1) ∧
    ((∀ d, d ∈ improvedDiagrams → gen d = Except.ok ()) →
      improvedMainExit gen = 0) ∧
    ((∃ d, d ∈ improvedDiagrams ∧ ∃ e2, gen d = Except.error e2) →
      improvedMainExit gen = 1) ∧
    (∀ d2 e2, d2 ∈ diagramTable → gen d2 = Except.error e2 →
      Event.errorMsg d2 e2 ∈ (fixedScript gen).1 ∧
      Event.errorMsg d2 e2 ∈ (academicScript gen).1) ∧
    (fixedScript gen).2 = 0 ∧
    (academicScript gen).2 = 0 := by
  refine ⟨rfl, rfl, fun r => rfl, ?_, ?_, ?_, rfl, rfl⟩
  · intro hok
    unfold improvedMainExit
    rw [improvedGeneratedFiles_all_ok gen hok]
    decide
  · intro hfail
    unfold improvedMainExit improvedGeneratedFiles
    rw [if_pos (improvedRun_has_runError gen improvedDiagrams hfail)]
    rfl
  · intro d2 e2 hd2 he2
    exact ⟨perDiagramRun_errorMsg_mem fixedPng fixedPdf gen
        diagramTable d2 e2 hd2 he2,
      perDiagramRun_errorMsg_mem academicPng academicPdf gen
        diagramTable d2 e2 hd2 he2⟩

/-- Witness for C7: with the ERD generation failing, the improved generator's
`main` exits `1`; with the Class Diagram failing, `academic_diagram_generator`
prints the error line naming it yet the process still exits `0`. -/
theorem c7_exit_codes_witness :
    improvedMainExit failErdGen = 1 ∧
    Event.errorMsg classDiagramTitle boomMsg ∈
      (academicScript failClassGen).1 ∧
    (academicScript failClassGen).2 = 0 := by
  refine ⟨?_, ?_, ?_⟩
  · exact (c7_exit_codes boomMsg failErdGen).2.2.2.2.1
      ⟨erdName, by decide, boomMsg, by simp [failErdGen]⟩
  · exact ((c7_exit_codes boomMsg failClassGen).2.2.2.2.2.1 classDiagramTitle
      boomMsg (by decide) (by simp [failClassGen])).2
  · exact (c7_exit_codes boomMsg failClassGen).2.2.2.2.2.2.2

end PentagonGym
